import Mathlib

/-!
Verification of `examples/cpp/multi_gpu_gpt/multi_gpu_gpt_example.cc`.

The example program is a straight-line driver: it validates the parallel
partition configuration, derives the local rank coordinates, forms the
communicator groups, allocates the generation buffers, runs a warmup pass and
a timed pass of the decode engine, and (on rank 0) persists the output ids.
We embed it as a pure function from a configuration record to the ordered
list of observable events the process performs together with its termination
status, and prove the claimed properties as statements about that trace.
-/

namespace MultiGpuGpt

/-- Memory space of a tensor descriptor (`MEMORY_GPU` / `MEMORY_CPU`). -/
inductive Memory
  | gpu
  | cpu
deriving DecidableEq

/-- Element type of a tensor descriptor (`TYPE_INT32` / `TYPE_FP32`). -/
inductive DType
  | int32
  | fp32
deriving DecidableEq

/-- A `Tensor` as constructed in the example: memory space, dtype, shape, and
whether the data pointer supplied for it is null. -/
structure TensorDesc where
  memory : Memory
  dtype : DType
  shape : List Nat
  isNull : Bool
deriving DecidableEq

/-- The five communicator-formation steps of the example, in source order:
`MPI_Cart_create` of the 2D grid, the two `MPI_Cart_sub` splits, and the two
`ncclCommInitRank` joins. -/
inductive CommKind
  | gridCart
  | tensorSub
  | pipelineSub
  | tensorNccl
  | pipelineNccl
deriving DecidableEq

/-- Which of the two forward-loop call sites a forward call belongs to:
the warmup loop (nvtx scope "warmup_time") or the timed loop
(nvtx scope "total_time"). -/
inductive Pass
  | warmup
  | measured
deriving DecidableEq

/-- Observable actions of one process of the example, in program order. -/
inductive Event
  | ftCheckFail (cond : String)
  | printError (msg : String)
  | commForm (k : CommKind)
  | allocInputIds (size : Nat)
  | allocInputLengths (size : Nat)
  | h2dInputIds (count : Nat)
  | h2dInputLengths (count : Nat)
  | allocOutputIds (size : Nat)
  | allocParentIds (size : Nat)
  | allocSequenceLengths (size : Nat)
  | barrier
  | forward (pass : Pass) (inputs : List TensorDesc) (outputs : List TensorDesc)
  | d2hOutputIds (count : Nat)
  | writeResultFile
  | warnCannotOpenFile
  | timestampStart
  | timestampEnd
  | reportLatency
deriving DecidableEq

/-- Termination status of the process. `exited c` is a call to `exit(c)`.
`abortedCheck cond` — modelled from the spec: an `FT_CHECK(cond)` macro whose
condition is false terminates the process fatally with a diagnostic naming the
failed condition ("macro-style abort-on-error checks"; "every fatal path
terminates with a diagnostic message"); the check itself does not print the
observed operand values. -/
inductive RunStatus
  | ok
  | exited (code : Int)
  | abortedCheck (cond : String)
deriving DecidableEq

/-- A status is fatal when the process did not complete normally:
an `exit` with non-zero code, or an aborted assertion. -/
def RunStatus.isFatal : RunStatus → Bool
  | .ok => false
  | .exited c => decide (c ≠ 0)
  | .abortedCheck _ => true

/-- The configuration values the example reads (INI file, start-ids CSV, and
MPI environment), restricted to the ones the control flow depends on.
`max_input_len` is the maximum start-sequence length produced by
`read_start_ids`; `out_file_opens` records whether opening the result file
`"out"` succeeds on this process. -/
structure Config where
  head_num : Nat
  decoder_layers : Nat
  tensor_para_size : Nat
  pipeline_para_size : Nat
  max_seq_len : Nat
  beam_width : Nat
  request_batch_size : Nat
  request_output_len : Nat
  max_input_len : Nat
  rank : Nat
  world_size : Nat
  out_file_opens : Bool
deriving DecidableEq

/-- `const int tensor_para_rank = rank % tensor_para_size;` -/
def tensor_para_rank (rank tensor_para_size : Nat) : Nat :=
  rank % tensor_para_size

/-- `const int pipeline_para_rank = rank / tensor_para_size;` -/
def pipeline_para_rank (rank tensor_para_size : Nat) : Nat :=
  rank / tensor_para_size

/-- `const int layers_per_group = decoder_layers / pipeline_para_size;` -/
def layers_per_group (decoder_layers pipeline_para_size : Nat) : Nat :=
  decoder_layers / pipeline_para_size

/-- `const int total_output_len = max_input_len + request_output_len;` -/
def total_output_len (cfg : Config) : Nat :=
  cfg.max_input_len + cfg.request_output_len

/-- The communicator-formation steps, in source order (lines 143-178). -/
def commEvents : List Event :=
  [.commForm .gridCart, .commForm .tensorSub, .commForm .pipelineSub,
   .commForm .tensorNccl, .commForm .pipelineNccl]

/-- Input-buffer handling (lines 192-206): in the unconditional case
(`max_input_len == 0`) nothing is allocated and the input pointers stay null;
otherwise the two device buffers are allocated and the host start ids and
lengths are copied into them. -/
def inputEvents (cfg : Config) : List Event :=
  if cfg.max_input_len = 0 then []
  else
    [.allocInputIds (cfg.request_batch_size * cfg.beam_width * cfg.max_input_len),
     .allocInputLengths (cfg.request_batch_size * cfg.beam_width),
     .h2dInputIds (cfg.request_batch_size * cfg.beam_width * cfg.max_input_len),
     .h2dInputLengths (cfg.request_batch_size * cfg.beam_width)]

/-- Output-buffer allocation (lines 282-287): output ids, parent ids and
sequence lengths are allocated unconditionally. -/
def outputAllocEvents (cfg : Config) : List Event :=
  [.allocOutputIds (cfg.request_batch_size * cfg.beam_width * total_output_len cfg),
   .allocParentIds (cfg.request_batch_size * cfg.beam_width * total_output_len cfg),
   .allocSequenceLengths (cfg.request_batch_size * cfg.beam_width)]

/-- The `input_tensors` vector (lines 289-295): input ids of shape
`{batch*beam, max_input_len}` and input lengths of shape `{batch*beam}`, both
backed by the device pointers that are null exactly when `max_input_len == 0`,
plus the CPU scalar holding `total_output_len`. -/
def input_tensors (cfg : Config) : List TensorDesc :=
  [⟨.gpu, .int32, [cfg.request_batch_size * cfg.beam_width, cfg.max_input_len],
    cfg.max_input_len == 0⟩,
   ⟨.gpu, .int32, [cfg.request_batch_size * cfg.beam_width],
    cfg.max_input_len == 0⟩,
   ⟨.cpu, .int32, [1], false⟩]

/-- The `output_tensors` vector (lines 297-310): output ids
`{batch, beam, total_output_len}`, parent ids `{total_output_len, batch, beam}`
and sequence lengths `{batch, beam}` backed by the freshly allocated device
buffers, and the per-step scores tensor
`{request_output_len, batch, beam}` whose data pointer is the literal
`nullptr`. -/
def output_tensors (cfg : Config) : List TensorDesc :=
  [⟨.gpu, .int32,
    [cfg.request_batch_size, cfg.beam_width, total_output_len cfg], false⟩,
   ⟨.gpu, .int32,
    [total_output_len cfg, cfg.request_batch_size, cfg.beam_width], false⟩,
   ⟨.gpu, .int32, [cfg.request_batch_size, cfg.beam_width], false⟩,
   ⟨.gpu, .fp32,
    [cfg.request_output_len, cfg.request_batch_size, cfg.beam_width], true⟩]

/-- The warmup block (lines 314-327): barrier, the warmup forward loop
(`ite` is reset to 1, so one call), then device sync and barrier. -/
def warmupEvents (cfg : Config) : List Event :=
  [.barrier, .forward .warmup (input_tensors cfg) (output_tensors cfg), .barrier]

/-- Result collection (lines 332-363): only on rank 0; if the file `"out"`
opens, copy the output ids to host and write them, otherwise print a warning
and do neither. -/
def collectEvents (cfg : Config) : List Event :=
  if cfg.rank = 0 then
    if cfg.out_file_opens then
      [.d2hOutputIds (total_output_len cfg * cfg.request_batch_size * cfg.beam_width),
       .writeResultFile]
    else [.warnCannotOpenFile]
  else []

/-- The timed block (lines 366-395): barrier and device sync, start timestamp,
the timed forward loop (one call), device sync and barrier, end timestamp, and
the latency report `printf` — none of which is guarded by a rank test. -/
def measuredEvents (cfg : Config) : List Event :=
  [.barrier, .timestampStart,
   .forward .measured (input_tensors cfg) (output_tensors cfg),
   .barrier, .timestampEnd, .reportLatency]

/-- The control flow of `multi_gpu_gpt_example` (lines 71-403), as the ordered
event trace of one process together with its termination status:
the two `FT_CHECK`s (lines 101-102), the world-size check (lines 120-123), the
layers-per-group check (lines 127-134), communicator formation, conditional
input-buffer setup, the `total_output_len` bound check (lines 208-212),
output-buffer allocation, warmup, rank-0 result collection, and the timed
pass with its report. -/
def run (cfg : Config) : List Event × RunStatus :=
  if cfg.head_num % cfg.tensor_para_size ≠ 0 then
    ([.ftCheckFail "head_num % tensor_para_size == 0"],
     .abortedCheck "head_num % tensor_para_size == 0")
  else if cfg.decoder_layers % cfg.pipeline_para_size ≠ 0 then
    ([.ftCheckFail "decoder_layers % pipeline_para_size == 0"],
     .abortedCheck "decoder_layers % pipeline_para_size == 0")
  else if cfg.tensor_para_size * cfg.pipeline_para_size ≠ cfg.world_size then
    ([.printError "tensor_para_size * pipeline_para_size should equal to world_size"],
     .exited (-1))
  else if layers_per_group cfg.decoder_layers cfg.pipeline_para_size
      * cfg.pipeline_para_size ≠ cfg.decoder_layers then
    ([.printError "layers_per_group * pipeline_para_size should equal to decoder_layers"],
     .exited (-1))
  else if total_output_len cfg > cfg.max_seq_len then
    (commEvents ++ inputEvents cfg ++
      [.printError "total_output_len should be <= max_seq_len"],
     .exited (-1))
  else
    (commEvents ++ inputEvents cfg ++ outputAllocEvents cfg ++ warmupEvents cfg
      ++ collectEvents cfg ++ measuredEvents cfg,
     .ok)

/-- Recognizes a communicator-formation event. -/
def isCommEvent : Event → Bool
  | .commForm _ => true
  | _ => false

/-- Recognizes a fatal-path diagnostic print (assertion message or `printf`
of an `[ERROR]` line). -/
def isDiagnostic : Event → Bool
  | .ftCheckFail _ => true
  | .printError _ => true
  | _ => false

/-- Recognizes the device-to-host copy / result-file write of the collector. -/
def isWriteResult : Event → Bool
  | .writeResultFile => true
  | _ => false

/-- Recognizes the forward call of the timed loop. -/
def isMeasuredForward : Event → Bool
  | .forward .measured _ _ => true
  | _ => false

/-- Recognizes the forward call of the warmup loop. -/
def isWarmupForward : Event → Bool
  | .forward .warmup _ _ => true
  | _ => false

/-- A minimal configuration passing every startup check: one rank, one layer,
unconditional generation, result file opens. -/
def cfgOk : Config :=
  ⟨1, 1, 1, 1, 4, 1, 1, 2, 0, 0, 1, true⟩

/-- A valid two-rank configuration seen from the non-coordinator rank 1. -/
def cfgRank1 : Config :=
  ⟨1, 2, 1, 2, 4, 1, 1, 2, 0, 1, 2, true⟩

/-- A configuration whose partition does not match the world size:
`tensor_para_size * pipeline_para_size = 4` but `world_size = 5`. -/
def cfgBadWorld : Config :=
  ⟨4, 4, 2, 2, 8, 1, 1, 2, 0, 0, 5, true⟩

/-- The spec scenario `head_num = 16, tensor_para_size = 3`:
`head_num` is not divisible by the tensor-parallel size. -/
def cfgBadHead : Config :=
  ⟨16, 3, 3, 1, 8, 1, 1, 2, 0, 0, 3, true⟩

/-- A configuration whose `decoder_layers = 7` is not divisible by
`pipeline_para_size = 2` (while `head_num % tensor_para_size = 0`). -/
def cfgBadLayers : Config :=
  ⟨16, 7, 1, 2, 8, 1, 1, 2, 0, 0, 2, true⟩

/-- The spec scenario `max_input_len = 0, request_output_len = 8,
max_seq_len = 16`. -/
def cfgScenario : Config :=
  ⟨1, 1, 1, 1, 16, 1, 1, 8, 0, 0, 1, true⟩

/-- A conditional-generation configuration with `max_input_len = 2`. -/
def cfgCond : Config :=
  ⟨1, 1, 1, 1, 8, 1, 1, 2, 2, 0, 1, true⟩

/-- A valid coordinator-rank configuration on which opening the result file
fails. -/
def cfgNoOpen : Config :=
  ⟨1, 1, 1, 1, 4, 1, 1, 2, 0, 0, 1, false⟩

end MultiGpuGpt

namespace MultiGpuGpt

/-- The trace of a configuration that passes every startup check: the pieces
in program order, with normal termination. -/
theorem run_eq_of_valid (cfg : Config)
    (h1 : cfg.head_num % cfg.tensor_para_size = 0)
    (h2 : cfg.decoder_layers % cfg.pipeline_para_size = 0)
    (h3 : cfg.tensor_para_size * cfg.pipeline_para_size = cfg.world_size)
    (h4 : total_output_len cfg ≤ cfg.max_seq_len) :
    run cfg =
      (commEvents ++ inputEvents cfg ++ outputAllocEvents cfg ++ warmupEvents cfg
        ++ collectEvents cfg ++ measuredEvents cfg, .ok) := by
  have hlg : layers_per_group cfg.decoder_layers cfg.pipeline_para_size
      * cfg.pipeline_para_size = cfg.decoder_layers :=
    Nat.div_mul_cancel (Nat.dvd_of_mod_eq_zero h2)
  simp [run, h1, h2, h3, hlg, not_lt.mpr h4]

/-- Claim C4: rank coordinates are `tensor_rank = r % tensor_size` and
`pipeline_rank = r / tensor_size`; for a valid configuration
(`tensor_size * pipeline_size = world_size`) every rank lands inside the grid,
distinct ranks get distinct coordinate pairs, every grid cell is hit, and in
the scenario `tensor_size=2, pipeline_size=2, world_size=4` rank 2 maps to
`(tensor_rank=0, pipeline_rank=1)`. -/
theorem rank_coordinates_cover_grid (t p world : Nat) (ht : 0 < t)
    (hw : t * p = world) :
    (∀ r, r < world → tensor_para_rank r t < t ∧ pipeline_para_rank r t < p) ∧
    (∀ r s, r < world → s < world →
      tensor_para_rank r t = tensor_para_rank s t →
      pipeline_para_rank r t = pipeline_para_rank s t → r = s) ∧
    (∀ tr pr, tr < t → pr < p →
      ∃ r, r < world ∧ tensor_para_rank r t = tr ∧ pipeline_para_rank r t = pr) ∧
    tensor_para_rank 2 2 = 0 ∧ pipeline_para_rank 2 2 = 1 := by
  refine ⟨?_, ?_, ?_, by decide, by decide⟩
  · intro r hr
    refine ⟨Nat.mod_lt r ht, ?_⟩
    have : r < t * p := hw ▸ hr
    exact Nat.div_lt_of_lt_mul this
  · intro r s hr hs hmod hdiv
    have hr' : t * (r / t) + r % t = r := Nat.div_add_mod r t
    have hs' : t * (s / t) + s % t = s := Nat.div_add_mod s t
    rw [← hr', ← hs']
    unfold tensor_para_rank at hmod
    unfold pipeline_para_rank at hdiv
    rw [hmod, hdiv]
  · intro tr pr htr hpr
    refine ⟨t * pr + tr, ?_, ?_, ?_⟩
    · calc t * pr + tr < t * pr + t := Nat.add_lt_add_left htr _
        _ = t * (pr + 1) := by ring
        _ ≤ t * p := Nat.mul_le_mul_left t hpr
        _ = world := hw
    · unfold tensor_para_rank
      rw [Nat.mul_add_mod]
      exact Nat.mod_eq_of_lt htr
    · unfold pipeline_para_rank
      rw [Nat.mul_add_div ht, Nat.div_eq_of_lt htr, Nat.add_zero]

/-- Witness for C4 at the spec scenario `tensor_size=2, pipeline_size=2,
world_size=4`. -/
theorem rank_coordinates_cover_grid_witness :
    0 < 2 ∧ 2 * 2 = 4 ∧
    ((∀ r, r < 4 → tensor_para_rank r 2 < 2 ∧ pipeline_para_rank r 2 < 2) ∧
     (∀ r s, r < 4 → s < 4 →
       tensor_para_rank r 2 = tensor_para_rank s 2 →
       pipeline_para_rank r 2 = pipeline_para_rank s 2 → r = s) ∧
     (∀ tr pr, tr < 2 → pr < 2 →
       ∃ r, r < 4 ∧ tensor_para_rank r 2 = tr ∧ pipeline_para_rank r 2 = pr) ∧
     tensor_para_rank 2 2 = 0 ∧ pipeline_para_rank 2 2 = 1) :=
  ⟨by decide, by decide, rank_coordinates_cover_grid 2 2 4 (by decide) (by decide)⟩

/-- Claim C5: whenever `tensor_para_size * pipeline_para_size` differs from
`world_size`, the run terminates fatally, a diagnostic is printed, and no
communicator-formation step (grid creation, sub-communicator split, or
collective join) ever happens. -/
theorem topology_mismatch_fails_before_comm (cfg : Config)
    (h : cfg.tensor_para_size * cfg.pipeline_para_size ≠ cfg.world_size) :
    (run cfg).2.isFatal = true ∧
    (∃ e ∈ (run cfg).1, isDiagnostic e = true) ∧
    (∀ e ∈ (run cfg).1, isCommEvent e = false) := by
  by_cases h1 : cfg.head_num % cfg.tensor_para_size = 0
  · by_cases h2 : cfg.decoder_layers % cfg.pipeline_para_size = 0
    · simp [run, h1, h2, h, RunStatus.isFatal, isDiagnostic, isCommEvent]
    · simp [run, h1, h2, RunStatus.isFatal, isDiagnostic, isCommEvent]
  · simp [run, h1, RunStatus.isFatal, isDiagnostic, isCommEvent]

/-- Witness for C5 at `tensor_para_size = 2, pipeline_para_size = 2,
world_size = 5`. -/
theorem topology_mismatch_fails_before_comm_witness :
    cfgBadWorld.tensor_para_size * cfgBadWorld.pipeline_para_size
      ≠ cfgBadWorld.world_size ∧
    ((run cfgBadWorld).2.isFatal = true ∧
     (∃ e ∈ (run cfgBadWorld).1, isDiagnostic e = true) ∧
     (∀ e ∈ (run cfgBadWorld).1, isCommEvent e = false)) :=
  ⟨by decide, topology_mismatch_fails_before_comm cfgBadWorld (by decide)⟩

/-- Claim C6: whenever `head_num` is not divisible by `tensor_para_size`, the
run aborts fatally at the first assertion, and no communicator-formation step
ever happens. -/
theorem head_num_mismatch_fails_before_comm (cfg : Config)
    (h : cfg.head_num % cfg.tensor_para_size ≠ 0) :
    (run cfg).2.isFatal = true ∧
    (run cfg).1 = [Event.ftCheckFail "head_num % tensor_para_size == 0"] ∧
    (∀ e ∈ (run cfg).1, isCommEvent e = false) := by
  refine ⟨?_, ?_, ?_⟩ <;> simp [run, h, RunStatus.isFatal, isCommEvent]

/-- Witness for C6 at the spec scenario `head_num = 16,
tensor_para_size = 3`. -/
theorem head_num_mismatch_fails_before_comm_witness :
    cfgBadHead.head_num % cfgBadHead.tensor_para_size ≠ 0 ∧
    ((run cfgBadHead).2.isFatal = true ∧
     (run cfgBadHead).1 = [Event.ftCheckFail "head_num % tensor_para_size == 0"] ∧
     (∀ e ∈ (run cfgBadHead).1, isCommEvent e = false)) :=
  ⟨by decide, head_num_mismatch_fails_before_comm cfgBadHead (by decide)⟩

/-- Counterexample to claim C7 as stated: with `decoder_layers = 7` not
divisible by `pipeline_para_size = 2`, the run aborts at the divisibility
assertion whose diagnostic names only the failed condition; the message that
reports the observed `layers_per_group`, `pipeline_para_size` and
`decoder_layers` values (lines 129-132) is never printed. -/
theorem layers_mismatch_diagnostic_absent :
    cfgBadLayers.decoder_layers % cfgBadLayers.pipeline_para_size ≠ 0 ∧
    (run cfgBadLayers).1 =
      [Event.ftCheckFail "decoder_layers % pipeline_para_size == 0"] ∧
    Event.printError
        "layers_per_group * pipeline_para_size should equal to decoder_layers"
      ∉ (run cfgBadLayers).1 := by
  decide

/-- Claim C7 (amended): whenever `decoder_layers` is not divisible by
`pipeline_para_size`, startup aborts fatally at the divisibility assertion
(line 102); the diagnostic identifies the violated condition, and the
layers-per-group mismatch message reporting the observed values is never
emitted, because the assertion aborts before that code (lines 127-134) can
run. -/
theorem layers_mismatch_aborts_at_assertion (cfg : Config)
    (h1 : cfg.head_num % cfg.tensor_para_size = 0)
    (h2 : cfg.decoder_layers % cfg.pipeline_para_size ≠ 0) :
    (run cfg).2 = .abortedCheck "decoder_layers % pipeline_para_size == 0" ∧
    (run cfg).1 = [Event.ftCheckFail "decoder_layers % pipeline_para_size == 0"] ∧
    (run cfg).2.isFatal = true ∧
    Event.printError
        "layers_per_group * pipeline_para_size should equal to decoder_layers"
      ∉ (run cfg).1 := by
  refine ⟨?_, ?_, ?_, ?_⟩ <;> simp [run, h1, h2, RunStatus.isFatal]

/-- Witness for the amended C7 at `decoder_layers = 7,
pipeline_para_size = 2`. -/
theorem layers_mismatch_aborts_at_assertion_witness :
    cfgBadLayers.head_num % cfgBadLayers.tensor_para_size = 0 ∧
    cfgBadLayers.decoder_layers % cfgBadLayers.pipeline_para_size ≠ 0 ∧
    ((run cfgBadLayers).2 = .abortedCheck "decoder_layers % pipeline_para_size == 0" ∧
     (run cfgBadLayers).1 =
       [Event.ftCheckFail "decoder_layers % pipeline_para_size == 0"] ∧
     (run cfgBadLayers).2.isFatal = true ∧
     Event.printError
         "layers_per_group * pipeline_para_size should equal to decoder_layers"
       ∉ (run cfgBadLayers).1) :=
  ⟨by decide, by decide,
   layers_mismatch_aborts_at_assertion cfgBadLayers (by decide) (by decide)⟩

/-- Claim C8: `total_output_len` is exactly
`max_input_len + request_output_len`; when it exceeds `max_seq_len` the
process exits fatally before any forward call or output allocation, and when
it does not, the output buffers are allocated and the run completes
normally. -/
theorem total_output_len_bound_check (cfg : Config)
    (h1 : cfg.head_num % cfg.tensor_para_size = 0)
    (h2 : cfg.decoder_layers % cfg.pipeline_para_size = 0)
    (h3 : cfg.tensor_para_size * cfg.pipeline_para_size = cfg.world_size) :
    total_output_len cfg = cfg.max_input_len + cfg.request_output_len ∧
    (cfg.max_seq_len < total_output_len cfg →
      (run cfg).2 = .exited (-1) ∧
      (∀ pk ins outs, Event.forward pk ins outs ∉ (run cfg).1) ∧
      (∀ n, Event.allocOutputIds n ∉ (run cfg).1)) ∧
    (total_output_len cfg ≤ cfg.max_seq_len →
      (run cfg).2 = .ok ∧
      Event.allocOutputIds
          (cfg.request_batch_size * cfg.beam_width * total_output_len cfg)
        ∈ (run cfg).1 ∧
      Event.allocParentIds
          (cfg.request_batch_size * cfg.beam_width * total_output_len cfg)
        ∈ (run cfg).1 ∧
      Event.allocSequenceLengths (cfg.request_batch_size * cfg.beam_width)
        ∈ (run cfg).1) := by
  have hlg : layers_per_group cfg.decoder_layers cfg.pipeline_para_size
      * cfg.pipeline_para_size = cfg.decoder_layers :=
    Nat.div_mul_cancel (Nat.dvd_of_mod_eq_zero h2)
  refine ⟨rfl, ?_, ?_⟩
  · intro hlt
    have hrun : run cfg =
        (commEvents ++ inputEvents cfg ++
          [.printError "total_output_len should be <= max_seq_len"],
         .exited (-1)) := by
      simp [run, h1, h2, h3, hlg, hlt]
    refine ⟨by rw [hrun], ?_, ?_⟩
    · intro pk ins outs
      rw [hrun]
      by_cases hm : cfg.max_input_len = 0 <;>
        simp [commEvents, inputEvents, hm]
    · intro n
      rw [hrun]
      by_cases hm : cfg.max_input_len = 0 <;>
        simp [commEvents, inputEvents, hm]
  · intro hle
    rw [run_eq_of_valid cfg h1 h2 h3 hle]
    refine ⟨rfl, ?_, ?_, ?_⟩ <;>
      simp [outputAllocEvents]

/-- Witness for C8 at the spec scenario
`max_input_len = 0, request_output_len = 8, max_seq_len = 16`, where
`total_output_len = 8`, buffers are allocated and the run is not fatal. -/
theorem total_output_len_bound_check_witness :
    cfgScenario.head_num % cfgScenario.tensor_para_size = 0 ∧
    cfgScenario.decoder_layers % cfgScenario.pipeline_para_size = 0 ∧
    cfgScenario.tensor_para_size * cfgScenario.pipeline_para_size
      = cfgScenario.world_size ∧
    total_output_len cfgScenario = 8 ∧
    (total_output_len cfgScenario = cfgScenario.max_input_len
        + cfgScenario.request_output_len ∧
     (cfgScenario.max_seq_len < total_output_len cfgScenario →
       (run cfgScenario).2 = .exited (-1) ∧
       (∀ pk ins outs, Event.forward pk ins outs ∉ (run cfgScenario).1) ∧
       (∀ n, Event.allocOutputIds n ∉ (run cfgScenario).1)) ∧
     (total_output_len cfgScenario ≤ cfgScenario.max_seq_len →
       (run cfgScenario).2 = .ok ∧
       Event.allocOutputIds
           (cfgScenario.request_batch_size * cfgScenario.beam_width
             * total_output_len cfgScenario)
         ∈ (run cfgScenario).1 ∧
       Event.allocParentIds
           (cfgScenario.request_batch_size * cfgScenario.beam_width
             * total_output_len cfgScenario)
         ∈ (run cfgScenario).1 ∧
       Event.allocSequenceLengths
           (cfgScenario.request_batch_size * cfgScenario.beam_width)
         ∈ (run cfgScenario).1)) :=
  ⟨by decide, by decide, by decide, by decide,
   total_output_len_bound_check cfgScenario (by decide) (by decide) (by decide)⟩

/-- Claim C9: with `max_input_len = 0` no input buffer is allocated, nothing
is copied host-to-device, and the forward call receives input-ids and
input-lengths tensors whose data pointers are null; with `max_input_len > 0`
the two input buffers are allocated and the start ids and lengths are copied
into them strictly before the first forward call. -/
theorem input_buffers_conditional (cfg : Config)
    (h1 : cfg.head_num % cfg.tensor_para_size = 0)
    (h2 : cfg.decoder_layers % cfg.pipeline_para_size = 0)
    (h3 : cfg.tensor_para_size * cfg.pipeline_para_size = cfg.world_size)
    (h4 : total_output_len cfg ≤ cfg.max_seq_len) :
    (cfg.max_input_len = 0 →
      (∀ n, Event.allocInputIds n ∉ (run cfg).1) ∧
      (∀ n, Event.allocInputLengths n ∉ (run cfg).1) ∧
      (∀ n, Event.h2dInputIds n ∉ (run cfg).1) ∧
      (∀ n, Event.h2dInputLengths n ∉ (run cfg).1) ∧
      input_tensors cfg =
        [⟨.gpu, .int32, [cfg.request_batch_size * cfg.beam_width, 0], true⟩,
         ⟨.gpu, .int32, [cfg.request_batch_size * cfg.beam_width], true⟩,
         ⟨.cpu, .int32, [1], false⟩] ∧
      Event.forward .warmup (input_tensors cfg) (output_tensors cfg)
        ∈ (run cfg).1) ∧
    (cfg.max_input_len ≠ 0 →
      ∃ pre post : List Event,
        (run cfg).1 = pre ++ post ∧
        Event.allocInputIds
            (cfg.request_batch_size * cfg.beam_width * cfg.max_input_len)
          ∈ pre ∧
        Event.allocInputLengths (cfg.request_batch_size * cfg.beam_width)
          ∈ pre ∧
        Event.h2dInputIds
            (cfg.request_batch_size * cfg.beam_width * cfg.max_input_len)
          ∈ pre ∧
        Event.h2dInputLengths (cfg.request_batch_size * cfg.beam_width)
          ∈ pre ∧
        (∀ e ∈ pre, ∀ pk ins outs, e ≠ Event.forward pk ins outs) ∧
        Event.forward .warmup (input_tensors cfg) (output_tensors cfg)
          ∈ post) := by
  rw [run_eq_of_valid cfg h1 h2 h3 h4]
  constructor
  · intro hm
    refine ⟨?_, ?_, ?_, ?_, ?_, ?_⟩
    · intro n
      by_cases hrk : cfg.rank = 0 <;> by_cases hof : cfg.out_file_opens <;>
        simp [commEvents, inputEvents, outputAllocEvents, warmupEvents,
          collectEvents, measuredEvents, hm, hrk, hof]
    · intro n
      by_cases hrk : cfg.rank = 0 <;> by_cases hof : cfg.out_file_opens <;>
        simp [commEvents, inputEvents, outputAllocEvents, warmupEvents,
          collectEvents, measuredEvents, hm, hrk, hof]
    · intro n
      by_cases hrk : cfg.rank = 0 <;> by_cases hof : cfg.out_file_opens <;>
        simp [commEvents, inputEvents, outputAllocEvents, warmupEvents,
          collectEvents, measuredEvents, hm, hrk, hof]
    · intro n
      by_cases hrk : cfg.rank = 0 <;> by_cases hof : cfg.out_file_opens <;>
        simp [commEvents, inputEvents, outputAllocEvents, warmupEvents,
          collectEvents, measuredEvents, hm, hrk, hof]
    · simp [input_tensors, hm]
    · simp [warmupEvents]
  · intro hm
    refine ⟨commEvents ++ inputEvents cfg,
      outputAllocEvents cfg ++ warmupEvents cfg ++ collectEvents cfg
        ++ measuredEvents cfg, ?_, ?_, ?_, ?_, ?_, ?_, ?_⟩
    · simp
    · simp [inputEvents, hm]
    · simp [inputEvents, hm]
    · simp [inputEvents, hm]
    · simp [inputEvents, hm]
    · intro e he
      simp [commEvents, inputEvents, hm] at he
      rcases he with h | h | h | h | h | h | h | h | h <;>
        subst h <;> intro pk ins outs <;> simp
    · simp [warmupEvents]

/-- Witness for C9 at a conditional-generation configuration with
`max_input_len = 2`. -/
theorem input_buffers_conditional_witness :
    cfgCond.head_num % cfgCond.tensor_para_size = 0 ∧
    cfgCond.decoder_layers % cfgCond.pipeline_para_size = 0 ∧
    cfgCond.tensor_para_size * cfgCond.pipeline_para_size = cfgCond.world_size ∧
    total_output_len cfgCond ≤ cfgCond.max_seq_len ∧
    ((cfgCond.max_input_len = 0 →
       (∀ n, Event.allocInputIds n ∉ (run cfgCond).1) ∧
       (∀ n, Event.allocInputLengths n ∉ (run cfgCond).1) ∧
       (∀ n, Event.h2dInputIds n ∉ (run cfgCond).1) ∧
       (∀ n, Event.h2dInputLengths n ∉ (run cfgCond).1) ∧
       input_tensors cfgCond =
         [⟨.gpu, .int32, [cfgCond.request_batch_size * cfgCond.beam_width, 0], true⟩,
          ⟨.gpu, .int32, [cfgCond.request_batch_size * cfgCond.beam_width], true⟩,
          ⟨.cpu, .int32, [1], false⟩] ∧
       Event.forward .warmup (input_tensors cfgCond) (output_tensors cfgCond)
         ∈ (run cfgCond).1) ∧
     (cfgCond.max_input_len ≠ 0 →
       ∃ pre post : List Event,
         (run cfgCond).1 = pre ++ post ∧
         Event.allocInputIds
             (cfgCond.request_batch_size * cfgCond.beam_width
               * cfgCond.max_input_len)
           ∈ pre ∧
         Event.allocInputLengths
             (cfgCond.request_batch_size * cfgCond.beam_width) ∈ pre ∧
         Event.h2dInputIds
             (cfgCond.request_batch_size * cfgCond.beam_width
               * cfgCond.max_input_len)
           ∈ pre ∧
         Event.h2dInputLengths
             (cfgCond.request_batch_size * cfgCond.beam_width) ∈ pre ∧
         (∀ e ∈ pre, ∀ pk ins outs, e ≠ Event.forward pk ins outs) ∧
         Event.forward .warmup (input_tensors cfgCond) (output_tensors cfgCond)
           ∈ post)) :=
  ⟨by decide, by decide, by decide, by decide,
   input_buffers_conditional cfgCond (by decide) (by decide) (by decide)
     (by decide)⟩

/-- Claim C10: when opening the result file fails on the coordinator rank, a
warning is emitted, no device-to-host copy and no result write happens, and
the run still executes the timed pass and the latency report and terminates
normally. -/
theorem file_open_failure_nonfatal (cfg : Config)
    (h1 : cfg.head_num % cfg.tensor_para_size = 0)
    (h2 : cfg.decoder_layers % cfg.pipeline_para_size = 0)
    (h3 : cfg.tensor_para_size * cfg.pipeline_para_size = cfg.world_size)
    (h4 : total_output_len cfg ≤ cfg.max_seq_len)
    (hr : cfg.rank = 0) (ho : cfg.out_file_opens = false) :
    (run cfg).2 = .ok ∧
    Event.warnCannotOpenFile ∈ (run cfg).1 ∧
    (∀ n, Event.d2hOutputIds n ∉ (run cfg).1) ∧
    Event.writeResultFile ∉ (run cfg).1 ∧
    Event.forward .measured (input_tensors cfg) (output_tensors cfg)
      ∈ (run cfg).1 ∧
    Event.reportLatency ∈ (run cfg).1 := by
  rw [run_eq_of_valid cfg h1 h2 h3 h4]
  refine ⟨rfl, ?_, ?_, ?_, ?_, ?_⟩
  · simp [collectEvents, hr, ho]
  · intro n
    by_cases hm : cfg.max_input_len = 0 <;>
      simp [commEvents, inputEvents, outputAllocEvents, warmupEvents,
        collectEvents, measuredEvents, hr, ho, hm]
  · by_cases hm : cfg.max_input_len = 0 <;>
      simp [commEvents, inputEvents, outputAllocEvents, warmupEvents,
        collectEvents, measuredEvents, hr, ho, hm]
  · simp [measuredEvents]
  · simp [measuredEvents]

/-- Witness for C10 at a valid coordinator configuration whose result file
does not open. -/
theorem file_open_failure_nonfatal_witness :
    cfgNoOpen.head_num % cfgNoOpen.tensor_para_size = 0 ∧
    cfgNoOpen.decoder_layers % cfgNoOpen.pipeline_para_size = 0 ∧
    cfgNoOpen.tensor_para_size * cfgNoOpen.pipeline_para_size
      = cfgNoOpen.world_size ∧
    total_output_len cfgNoOpen ≤ cfgNoOpen.max_seq_len ∧
    cfgNoOpen.rank = 0 ∧
    cfgNoOpen.out_file_opens = false ∧
    ((run cfgNoOpen).2 = .ok ∧
     Event.warnCannotOpenFile ∈ (run cfgNoOpen).1 ∧
     (∀ n, Event.d2hOutputIds n ∉ (run cfgNoOpen).1) ∧
     Event.writeResultFile ∉ (run cfgNoOpen).1 ∧
     Event.forward .measured (input_tensors cfgNoOpen) (output_tensors cfgNoOpen)
       ∈ (run cfgNoOpen).1 ∧
     Event.reportLatency ∈ (run cfgNoOpen).1) :=
  ⟨by decide, by decide, by decide, by decide, by decide, by decide,
   file_open_failure_nonfatal cfgNoOpen (by decide) (by decide) (by decide)
     (by decide) (by decide) (by decide)⟩

/-- Counterexample to claim C1 as stated: on a valid coordinator
configuration, the result-file write happens at a strictly earlier trace
position than the timed pass's forward call (which does occur later), so
result collection runs before — not only after — the measured pass. -/
theorem result_collection_precedes_measured :
    List.findIdx isWriteResult (run cfgOk).1 <
      List.findIdx isMeasuredForward (run cfgOk).1 ∧
    List.findIdx isMeasuredForward (run cfgOk).1 < (run cfgOk).1.length := by
  decide

/-- Claim C1 (amended): on the coordinator rank (when the result file opens),
result collection — the device-to-host copy of the output ids followed by the
result-file write — runs after the warmup pass has completed and before the
measured (timed) pass begins. -/
theorem result_collection_between_passes (cfg : Config)
    (h1 : cfg.head_num % cfg.tensor_para_size = 0)
    (h2 : cfg.decoder_layers % cfg.pipeline_para_size = 0)
    (h3 : cfg.tensor_para_size * cfg.pipeline_para_size = cfg.world_size)
    (h4 : total_output_len cfg ≤ cfg.max_seq_len)
    (hr : cfg.rank = 0) (ho : cfg.out_file_opens = true) :
    ∃ pre post : List Event,
      (run cfg).1 = pre ++
        (Event.d2hOutputIds
            (total_output_len cfg * cfg.request_batch_size * cfg.beam_width)
          :: Event.writeResultFile :: post) ∧
      (∃ e ∈ pre, isWarmupForward e = true) ∧
      (∀ ins outs, Event.forward .measured ins outs ∉ pre) ∧
      (∃ e ∈ post, isMeasuredForward e = true) := by
  rw [run_eq_of_valid cfg h1 h2 h3 h4]
  refine ⟨commEvents ++ inputEvents cfg ++ outputAllocEvents cfg
    ++ warmupEvents cfg, measuredEvents cfg, ?_, ?_, ?_, ?_⟩
  · simp [collectEvents, hr, ho]
  · refine ⟨Event.forward .warmup (input_tensors cfg) (output_tensors cfg),
      ?_, by simp [isWarmupForward]⟩
    simp [warmupEvents]
  · intro ins outs
    by_cases hm : cfg.max_input_len = 0 <;>
      simp [commEvents, inputEvents, outputAllocEvents, warmupEvents, hm]
  · refine ⟨Event.forward .measured (input_tensors cfg) (output_tensors cfg),
      ?_, by simp [isMeasuredForward]⟩
    simp [measuredEvents]

/-- Witness for the amended C1 at a valid coordinator configuration. -/
theorem result_collection_between_passes_witness :
    cfgOk.head_num % cfgOk.tensor_para_size = 0 ∧
    cfgOk.decoder_layers % cfgOk.pipeline_para_size = 0 ∧
    cfgOk.tensor_para_size * cfgOk.pipeline_para_size = cfgOk.world_size ∧
    total_output_len cfgOk ≤ cfgOk.max_seq_len ∧
    cfgOk.rank = 0 ∧
    cfgOk.out_file_opens = true ∧
    (∃ pre post : List Event,
      (run cfgOk).1 = pre ++
        (Event.d2hOutputIds
            (total_output_len cfgOk * cfgOk.request_batch_size * cfgOk.beam_width)
          :: Event.writeResultFile :: post) ∧
      (∃ e ∈ pre, isWarmupForward e = true) ∧
      (∀ ins outs, Event.forward .measured ins outs ∉ pre) ∧
      (∃ e ∈ post, isMeasuredForward e = true)) :=
  ⟨by decide, by decide, by decide, by decide, by decide, by decide,
   result_collection_between_passes cfgOk (by decide) (by decide) (by decide)
     (by decide) (by decide) (by decide)⟩

/-- Counterexample to claim C2 as stated: a rank whose global rank is 1 still
records both timestamps around the measured region and reports the latency,
so the non-coordinator ranks do not skip the timing computation. -/
theorem noncoordinator_rank_times_and_reports :
    cfgRank1.rank ≠ 0 ∧
    Event.timestampStart ∈ (run cfgRank1).1 ∧
    Event.timestampEnd ∈ (run cfgRank1).1 ∧
    Event.reportLatency ∈ (run cfgRank1).1 := by
  decide

/-- Claim C2 (amended): only the coordinator rank (global rank 0) performs the
result-collection steps — the device-to-host copy, the result-file write, and
the file-open warning — and every other rank skips them; the start/end
timestamps around the measured region and the mean-latency report, however,
are executed by every rank. -/
theorem collection_rank0_timing_all_ranks (cfg : Config)
    (h1 : cfg.head_num % cfg.tensor_para_size = 0)
    (h2 : cfg.decoder_layers % cfg.pipeline_para_size = 0)
    (h3 : cfg.tensor_para_size * cfg.pipeline_para_size = cfg.world_size)
    (h4 : total_output_len cfg ≤ cfg.max_seq_len) :
    (cfg.rank ≠ 0 →
      Event.writeResultFile ∉ (run cfg).1 ∧
      (∀ n, Event.d2hOutputIds n ∉ (run cfg).1) ∧
      Event.warnCannotOpenFile ∉ (run cfg).1) ∧
    Event.timestampStart ∈ (run cfg).1 ∧
    Event.timestampEnd ∈ (run cfg).1 ∧
    Event.reportLatency ∈ (run cfg).1 := by
  rw [run_eq_of_valid cfg h1 h2 h3 h4]
  refine ⟨?_, ?_, ?_, ?_⟩
  · intro hrk
    refine ⟨?_, ?_, ?_⟩
    · by_cases hm : cfg.max_input_len = 0 <;>
        simp [commEvents, inputEvents, outputAllocEvents, warmupEvents,
          collectEvents, measuredEvents, hm, hrk]
    · intro n
      by_cases hm : cfg.max_input_len = 0 <;>
        simp [commEvents, inputEvents, outputAllocEvents, warmupEvents,
          collectEvents, measuredEvents, hm, hrk]
    · by_cases hm : cfg.max_input_len = 0 <;>
        simp [commEvents, inputEvents, outputAllocEvents, warmupEvents,
          collectEvents, measuredEvents, hm, hrk]
  · simp [measuredEvents]
  · simp [measuredEvents]
  · simp [measuredEvents]

/-- Witness for the amended C2 at the non-coordinator rank 1 of a two-rank
configuration. -/
theorem collection_rank0_timing_all_ranks_witness :
    cfgRank1.head_num % cfgRank1.tensor_para_size = 0 ∧
    cfgRank1.decoder_layers % cfgRank1.pipeline_para_size = 0 ∧
    cfgRank1.tensor_para_size * cfgRank1.pipeline_para_size
      = cfgRank1.world_size ∧
    total_output_len cfgRank1 ≤ cfgRank1.max_seq_len ∧
    ((cfgRank1.rank ≠ 0 →
       Event.writeResultFile ∉ (run cfgRank1).1 ∧
       (∀ n, Event.d2hOutputIds n ∉ (run cfgRank1).1) ∧
       Event.warnCannotOpenFile ∉ (run cfgRank1).1) ∧
     Event.timestampStart ∈ (run cfgRank1).1 ∧
     Event.timestampEnd ∈ (run cfgRank1).1 ∧
     Event.reportLatency ∈ (run cfgRank1).1) :=
  ⟨by decide, by decide, by decide, by decide,
   collection_rank0_timing_all_ranks cfgRank1 (by decide) (by decide)
     (by decide) (by decide)⟩

/-- Counterexample to claim C3 as stated: on a valid configuration the decode
engine's forward call does happen, but the fourth output tensor — the
per-step scores — is passed with a null data pointer, not a valid device
buffer. -/
theorem scores_tensor_passed_null :
    Event.forward .warmup (input_tensors cfgOk) (output_tensors cfgOk)
      ∈ (run cfgOk).1 ∧
    (output_tensors cfgOk).get? 3 =
      some ⟨.gpu, .fp32, [2, 1, 1], true⟩ := by
  decide

/-- Claim C3 (amended): the output-ids, parent-ids and sequence-lengths
buffers are allocated unconditionally with the shapes of section 3 and passed
to both forward calls as non-null device tensors; the per-step scores tensor
is passed with shape `[output_len, batch, beam]` but with a null data pointer
and no backing allocation. -/
theorem output_buffers_allocated_scores_null (cfg : Config)
    (h1 : cfg.head_num % cfg.tensor_para_size = 0)
    (h2 : cfg.decoder_layers % cfg.pipeline_para_size = 0)
    (h3 : cfg.tensor_para_size * cfg.pipeline_para_size = cfg.world_size)
    (h4 : total_output_len cfg ≤ cfg.max_seq_len) :
    Event.allocOutputIds
        (cfg.request_batch_size * cfg.beam_width * total_output_len cfg)
      ∈ (run cfg).1 ∧
    Event.allocParentIds
        (cfg.request_batch_size * cfg.beam_width * total_output_len cfg)
      ∈ (run cfg).1 ∧
    Event.allocSequenceLengths (cfg.request_batch_size * cfg.beam_width)
      ∈ (run cfg).1 ∧
    Event.forward .warmup (input_tensors cfg) (output_tensors cfg)
      ∈ (run cfg).1 ∧
    Event.forward .measured (input_tensors cfg) (output_tensors cfg)
      ∈ (run cfg).1 ∧
    output_tensors cfg =
      [⟨.gpu, .int32,
        [cfg.request_batch_size, cfg.beam_width, total_output_len cfg], false⟩,
       ⟨.gpu, .int32,
        [total_output_len cfg, cfg.request_batch_size, cfg.beam_width], false⟩,
       ⟨.gpu, .int32, [cfg.request_batch_size, cfg.beam_width], false⟩,
       ⟨.gpu, .fp32,
        [cfg.request_output_len, cfg.request_batch_size, cfg.beam_width],
        true⟩] := by
  rw [run_eq_of_valid cfg h1 h2 h3 h4]
  refine ⟨?_, ?_, ?_, ?_, ?_, rfl⟩ <;>
    simp [outputAllocEvents, warmupEvents, measuredEvents]

/-- Witness for the amended C3 at a valid configuration. -/
theorem output_buffers_allocated_scores_null_witness :
    cfgOk.head_num % cfgOk.tensor_para_size = 0 ∧
    cfgOk.decoder_layers % cfgOk.pipeline_para_size = 0 ∧
    cfgOk.tensor_para_size * cfgOk.pipeline_para_size = cfgOk.world_size ∧
    total_output_len cfgOk ≤ cfgOk.max_seq_len ∧
    (Event.allocOutputIds
         (cfgOk.request_batch_size * cfgOk.beam_width * total_output_len cfgOk)
       ∈ (run cfgOk).1 ∧
     Event.allocParentIds
         (cfgOk.request_batch_size * cfgOk.beam_width * total_output_len cfgOk)
       ∈ (run cfgOk).1 ∧
     Event.allocSequenceLengths (cfgOk.request_batch_size * cfgOk.beam_width)
       ∈ (run cfgOk).1 ∧
     Event.forward .warmup (input_tensors cfgOk) (output_tensors cfgOk)
       ∈ (run cfgOk).1 ∧
     Event.forward .measured (input_tensors cfgOk) (output_tensors cfgOk)
       ∈ (run cfgOk).1 ∧
     output_tensors cfgOk =
       [⟨.gpu, .int32,
         [cfgOk.request_batch_size, cfgOk.beam_width, total_output_len cfgOk],
         false⟩,
        ⟨.gpu, .int32,
         [total_output_len cfgOk, cfgOk.request_batch_size, cfgOk.beam_width],
         false⟩,
        ⟨.gpu, .int32, [cfgOk.request_batch_size, cfgOk.beam_width], false⟩,
        ⟨.gpu, .fp32,
         [cfgOk.request_output_len, cfgOk.request_batch_size, cfgOk.beam_width],
         true⟩]) :=
  ⟨by decide, by decide, by decide, by decide,
   output_buffers_allocated_scores_null cfgOk (by decide) (by decide)
     (by decide) (by decide)⟩

end MultiGpuGpt
